import Mathlib

/-!
Verification development for the webcam_in_gmod MJPEG relay server.

The repository ships two deployment variants of the same relay:
* `src/server.js` — the signed-token (JWT) variant: `pushFrame`, the
  `verifyTokenOrOpen` access gate with `view`/`upload`/`admin` scopes,
  `/jpg/:sid`, `/mjpg/:sid`, `/status`, `/issue`, and a WebSocket
  upgrade handler guarded by JWT verification.
* `src/unnamed/part_000` — the keyed-digest variant: the same
  `pushFrame`/`latest`/`watchers` core plus an `uploaders` registry,
  an unauthenticated `/status`, an `ADMIN_CODE`-guarded admin panel
  with `/admin/disconnect/:sid`, and an upgrade handler that compares
  `sha256(SHARED_SECRET ++ ":" ++ sid)` against a supplied token.

This file shallowly embeds the state and request handlers of both
variants and proves properties about them.  JavaScript `Map`s are
modelled as association lists (insertion-ordered, unique keys, like
`Map`), `Set`s of response/socket objects as lists of handles added
if absent, and JPEG frames as opaque byte lists.  Cryptographic
primitives (HMAC signing inside `jsonwebtoken`, SHA-256 inside
`crypto.createHash`) are modelled abstractly: a signed token records
the payload and the secret it was signed with, and the digest hash is
a function parameter.
-/

set_option autoImplicit false

namespace Gsims

/-- Frame: an opaque JPEG byte sequence (`Buffer` in the source). -/
abbrev Frame := List Nat

section AssocMap

variable {α : Type}

/-- Lookup in an insertion-ordered map (`Map.prototype.get`). -/
def mapGet : List (String × α) → String → Option α
  | [], _ => none
  | (k, v) :: rest, key => if k = key then some v else mapGet rest key

/-- Update/insert in an insertion-ordered map (`Map.prototype.set`):
replace the value at the first matching key, else append. -/
def mapSet : List (String × α) → String → α → List (String × α)
  | [], key, v => [(key, v)]
  | (k, w) :: rest, key, v =>
      if k = key then (key, v) :: rest else (k, w) :: mapSet rest key v

/-- Deletion from a map (`Map.prototype.delete`).  A JavaScript `Map`
never holds duplicate keys, so removing every pair with the key
coincides with deleting the unique entry. -/
def mapErase : List (String × α) → String → List (String × α)
  | [], _ => []
  | (k, w) :: rest, key =>
      if k = key then mapErase rest key else (k, w) :: mapErase rest key

/-- Key enumeration (`Map.prototype.keys`, insertion order). -/
def mapKeys (m : List (String × α)) : List String := m.map Prod.fst

end AssocMap

/-- Watcher: one registered multipart HTTP response (`res` in the
source).  `wid` identifies the response object; `canWrite` says
whether writes to its channel succeed (a dead/closed channel makes
`res.write` throw, which is what the `catch` in `pushFrame` sees). -/
structure Watcher where
  wid : Nat
  canWrite : Bool
deriving DecidableEq

/-- Full in-memory server state: `latest` (sid → newest JPEG),
`watchers` (sid → set of multipart responses) and, in the digest
variant, `uploaders` (sid → set of active WebSocket ids). -/
structure ServerState where
  latest : List (String × Frame)
  watchers : List (String × List Watcher)
  uploaders : List (String × List Nat)
deriving DecidableEq

/-- Initial state: all three maps empty. -/
def initState : ServerState := ⟨[], [], []⟩

/-- Set addition (`Set.prototype.add`): append if not yet present. -/
def setAdd (l : List Watcher) (w : Watcher) : List Watcher :=
  if w ∈ l then l else l ++ [w]

/-- Set addition for uploader socket ids. -/
def natSetAdd (l : List Nat) (u : Nat) : List Nat :=
  if u ∈ l then l else l ++ [u]

/-- Broadcast loop of `pushFrame`: iterate over the watcher set in
insertion order; for each watcher try the three `res.write` calls
(part header, JPEG bytes, trailing CRLF); on a throw, `res.end()` and
`set.delete(res)` — the loop then continues with the next watcher.
Returns the surviving set and the (wid, frame) deliveries made. -/
def pushLoop (buf : Frame) : List Watcher → List Watcher × List (Nat × Frame)
  | [] => ([], [])
  | w :: ws =>
      let rest := pushLoop buf ws
      if w.canWrite then (w :: rest.1, (w.wid, buf) :: rest.2)
      else (rest.1, rest.2)

/-- `pushFrame(sid, buf)` from both variants: store the frame in
`latest` unconditionally, then fan it out to the watcher set of `sid`
if one exists, dropping watchers whose channel write throws.  The
function is total — a per-watcher write failure is caught inside the
loop and never surfaces to the caller (the WebSocket message
handler). -/
def pushFrame (st : ServerState) (sid : String) (buf : Frame) :
    ServerState × List (Nat × Frame) :=
  let st1 : ServerState := { st with latest := mapSet st.latest sid buf }
  match mapGet st.watchers sid with
  | none => (st1, [])
  | some set =>
      let r := pushLoop buf set
      ({ st1 with watchers := mapSet st.watchers sid r.1 }, r.2)

/-- Snapshot handler outcome for `GET /jpg/:sid` (post-gate part):
`204` with empty body when no frame is stored, else `200` with the
frame bytes. -/
inductive JpgResponse where
  | rejected (status : Nat) (error : String)
  | noContent
  | image (body : Frame)
deriving DecidableEq

/-- Core of `app.get('/jpg/:sid')`, identical in both variants:
read `latest.get(sid)`; absent ⇒ `res.status(204).end()`; present ⇒
`200` with `Content-Type: image/jpeg` and the stored bytes. -/
def handleJpg (st : ServerState) (sid : String) : JpgResponse :=
  match mapGet st.latest sid with
  | none => JpgResponse.noContent
  | some buf => JpgResponse.image buf

/-! ### The signed-token (JWT) access gate of `src/server.js` -/

/-- JWT payload as minted by `/issue` and checked by the guards:
`{ sid, scope, exp }`. -/
structure Payload where
  sid : String
  scope : String
  exp : Nat
deriving DecidableEq

/-- Abstract model of an HS256-signed token: the payload together with
the secret it was signed with.  `jwt.verify(tok, secret)` succeeds
exactly when the signing secret equals the verifying secret and the
embedded expiry has not passed (HS256 is assumed collision-free, i.e.
a token signed with one secret never verifies under another). -/
structure Token where
  payload : Payload
  signedWith : String
deriving DecidableEq

/-- Model of `jwt.verify(tok, JWT_SECRET, { algorithms: ['HS256'] })`:
returns the payload on success, `none` on signature mismatch or
expiry. -/
def jwtVerify (tok : Token) (secret : String) (now : Nat) : Option Payload :=
  if tok.signedWith = secret ∧ now < tok.payload.exp then some tok.payload
  else none

/-- Outcome of a guard middleware: proceed to the handler (with the
decoded payload attached as `req.jwt` in enforcing mode) or reject
with an HTTP status and a structured error code. -/
inductive GuardResult where
  | proceed (p : Option Payload)
  | reject (status : Nat) (error : String)
deriving DecidableEq

/-- Model of `verifyTokenOrOpen(scopeCheck)` from `src/server.js`:
open mode (no `GSIMS_JWT_SECRET`) passes everything; enforcing mode
requires a bearer/query token, verifies it, and applies the scope
check (`403 forbidden` when the check fails, `401` when the token is
missing or does not verify). -/
def verifyTokenOrOpen (scopeOk : Payload → Bool) (secret : Option String)
    (tok : Option Token) (now : Nat) : GuardResult :=
  match secret with
  | none => GuardResult.proceed none
  | some sec =>
      match tok with
      | none => GuardResult.reject 401 "missing_token"
      | some t =>
          match jwtVerify t sec now with
          | none => GuardResult.reject 401 "invalid_token"
          | some p =>
              if scopeOk p then GuardResult.proceed (some p)
              else GuardResult.reject 403 "forbidden"

/-- The `viewGuard` of `src/server.js`: payload must carry the
requested `:sid` and scope `view`. -/
def viewGuard (sidParam : String) (secret : Option String)
    (tok : Option Token) (now : Nat) : GuardResult :=
  verifyTokenOrOpen
    (fun p => decide (p.sid = sidParam ∧ p.scope = "view")) secret tok now

/-- Full route `GET /jpg/:sid` of `src/server.js`: `viewGuard` then
the snapshot handler. -/
def handleJpgRoute (secret : Option String) (tok : Option Token) (now : Nat)
    (st : ServerState) (sid : String) : JpgResponse :=
  match viewGuard sid secret tok now with
  | GuardResult.reject s e => JpgResponse.rejected s e
  | GuardResult.proceed _ => handleJpg st sid

/-- Response of the `/status` route in `src/server.js`. -/
inductive StatusJwtResult where
  | rejected (status : Nat) (error : String)
  | body (mode : String) (streams : List String) (watcherCounts : List (String × Nat))
deriving DecidableEq

/-- `app.get('/status', ..., verifyTokenOrOpen((p) => p.scope === 'admin'), ...)`
from `src/server.js`: admin-scoped in enforcing mode, open otherwise;
the body lists `latest` keys and per-session watcher counts. -/
def handleStatusJwt (secret : Option String) (tok : Option Token) (now : Nat)
    (st : ServerState) : StatusJwtResult :=
  match verifyTokenOrOpen (fun p => decide (p.scope = "admin")) secret tok now with
  | GuardResult.reject s e => StatusJwtResult.rejected s e
  | GuardResult.proceed _ =>
      StatusJwtResult.body (if secret.isSome then "secure" else "open")
        (mapKeys st.latest)
        (st.watchers.map (fun kv => (kv.1, kv.2.length)))

/-- Status body of the digest variant (`src/unnamed/part_000`,
`app.get('/status')`): `latest` keys plus watcher and uploader counts.
The timestamp field is omitted (wall-clock, irrelevant here). -/
structure StatusBody where
  streams : List String
  watcherCounts : List (String × Nat)
  uploaderCounts : List (String × Nat)
deriving DecidableEq

/-- Enumeration produced by the digest variant's status handler. -/
def statusDigestBody (st : ServerState) : StatusBody :=
  { streams := mapKeys st.latest
    watcherCounts := st.watchers.map (fun kv => (kv.1, kv.2.length))
    uploaderCounts := st.uploaders.map (fun kv => (kv.1, kv.2.length)) }

/-- Route `GET /status` of the digest variant.  The handler consults
no credential at all — `code` models whatever credential the request
happens to carry (query or header), which the source ignores. -/
def handleStatusDigestRoute (code : Option String) (st : ServerState) :
    StatusBody :=
  statusDigestBody st

/-! ### Token issuance (`POST /issue`, `src/server.js`) -/

/-- Test `/^\d+$/` applied to the requested sid: non-empty and all
characters decimal digits. -/
def sidDigits (sid : String) : Bool :=
  sid ≠ "" && sid.data.all Char.isDigit

/-- Model of `app.post('/issue')`: requires both secrets configured
and a matching `X-API-Key`; validates sid and scope; clamps the TTL
to 30 s … 7 d; returns a token signed with `JWT_SECRET`.  Note that
scope `admin` is mintable here with the same `JWT_SECRET` used for
`view`/`upload` tokens. -/
def handleIssue (jwtSecret apiKey : Option String) (reqKey : String)
    (sid scope : String) (ttl : Nat) (now : Nat) :
    Except (Nat × String) Token :=
  match jwtSecret, apiKey with
  | some js, some ak =>
      if reqKey ≠ ak then Except.error (403, "bad_api_key")
      else if ¬ sidDigits sid then Except.error (400, "bad_sid")
      else if ¬ (scope = "view" ∨ scope = "upload" ∨ scope = "admin") then
        Except.error (400, "bad_scope")
      else
        Except.ok ⟨⟨sid, scope, now + max 30 (min (86400 * 7) ttl)⟩, js⟩
  | _, _ => Except.error (501, "not_configured")

/-! ### WebSocket upgrade handshakes -/

/-- Transport-level outcome of `server.on('upgrade')`: either the raw
socket is destroyed (no response of any kind) or the upgrade
completes and the connection is associated with a session. -/
inductive UpgradeResult where
  | destroyed
  | upgraded (sid : String)
deriving DecidableEq

/-- Upgrade handler of `src/server.js`.  `sidParam`/`tokParam` are the
`sid` and `t` query parameters (`none` for absent).  The source reads
`String(url.searchParams.get('sid') || '0')`, so an absent or empty
`sid` becomes `"0"`; an absent or empty `t` is falsy and destroys the
socket in enforcing mode. -/
def handleUpgradeJwt (path : String) (sidParam : Option String)
    (tokParam : Option Token) (secret : Option String) (now : Nat) :
    UpgradeResult :=
  if path ≠ "/ws" then UpgradeResult.destroyed
  else
    let sid := match sidParam with
      | none => "0"
      | some s => if s = "" then "0" else s
    match secret with
    | none => UpgradeResult.upgraded sid
    | some sec =>
        match tokParam with
        | none => UpgradeResult.destroyed
        | some t =>
            match jwtVerify t sec now with
            | none => UpgradeResult.destroyed
            | some p =>
                if p.sid = sid ∧ p.scope = "upload" then
                  UpgradeResult.upgraded sid
                else UpgradeResult.destroyed

/-- `crypto.timingSafeEqual` behind the length check in `safeEqual`:
functionally, string equality (the timing aspect is not modelled). -/
def safeEqual (a b : String) : Bool := a = b

/-- `tokenForSidHex(sid)` of the digest variant:
`sha256(SHARED_SECRET ++ ":" ++ sid)` in hex.  The hash itself is a
parameter of the model. -/
def tokenForSidHex (hash : String → String) (secret sid : String) : String :=
  hash (secret ++ ":" ++ sid)

/-- Upgrade handler of `src/unnamed/part_000`: wrong path, missing
`sid`, missing `token`, or digest mismatch all destroy the socket. -/
def handleUpgradeDigest (hash : String → String) (sharedSecret : String)
    (path : String) (sidParam tokenParam : Option String) : UpgradeResult :=
  if path ≠ "/ws" then UpgradeResult.destroyed
  else
    let sid := sidParam.getD ""
    let token := tokenParam.getD ""
    if sid = "" ∨ token = "" ∨
        ¬ safeEqual (tokenForSidHex hash sharedSecret sid) token = true then
      UpgradeResult.destroyed
    else UpgradeResult.upgraded sid

/-! ### Admin panel of the digest variant -/

/-- `isAdmin(req)` from `src/unnamed/part_000`: the `code` query
parameter or the `x-gsims-code` header must equal `ADMIN_CODE`
(absent values arrive as the empty string). -/
def isAdmin (codeQ codeH adminCode : String) : Bool :=
  codeQ = adminCode || codeH = adminCode

/-- Administrative decision of the digest variant as a function of
the whole configuration in scope at the handler (`SHARED_SECRET` and
`ADMIN_CODE`): the shared digest secret is never consulted. -/
def adminDecision (sharedSecret adminCode codeQ codeH : String) : Bool :=
  isAdmin codeQ codeH adminCode

/-- Response of `POST /admin/disconnect/:sid`. -/
inductive AdminResp where
  | notFound
  | okJson
deriving DecidableEq

/-- `app.post('/admin/disconnect/:sid')` from `src/unnamed/part_000`:
without admin credentials, `404 Not found`; otherwise `ws.close` every
tracked uploader of the session (returned here as the list of closed
socket ids), delete its stored frame, and answer `{ok:true}`.  The
uploader registry itself is mutated later by the sockets' own `close`
events, not by this handler. -/
def handleAdminDisconnect (adminCode codeQ codeH : String)
    (st : ServerState) (sid : String) :
    AdminResp × ServerState × List Nat :=
  if isAdmin codeQ codeH adminCode then
    (AdminResp.okJson,
     { st with latest := mapErase st.latest sid },
     (mapGet st.uploaders sid).getD [])
  else (AdminResp.notFound, st, [])

/-! ### Connection lifecycle as a transition system

Events model the callbacks that mutate the shared maps in
`src/unnamed/part_000` (the `src/server.js` variant is the same minus
the `uploaders` registry): a WebSocket frame arriving (`publish`), a
multipart viewer connecting (its registration in `watchers`) or its
channel closing, an uploader socket being registered on `connection`
or removed again by its `close` handler, and an authorized
administrative disconnect clearing the stored frame. -/
inductive Ev where
  | publish (sid : String) (buf : Frame)
  | watcherConnect (sid : String) (w : Watcher)
  | watcherClose (sid : String) (wid : Nat)
  | uploaderConnect (sid : String) (uid : Nat)
  | uploaderClose (sid : String) (uid : Nat)
  | adminDisconnect (sid : String)
deriving DecidableEq

/-- Watcher registration from `app.get('/mjpg/:sid')`: create the set
if absent, add the response.  (The priming write of the current frame
does not change the state.) -/
def registerWatcher (st : ServerState) (sid : String) (w : Watcher) :
    ServerState :=
  { st with watchers :=
      mapSet st.watchers sid (setAdd ((mapGet st.watchers sid).getD []) w) }

/-- Watcher removal from the `close`/`error` callbacks of
`/mjpg/:sid`: `set.delete(res)` — and nothing else; the (possibly
now empty) set stays in the `watchers` map. -/
def closeWatcher (st : ServerState) (sid : String) (wid : Nat) : ServerState :=
  match mapGet st.watchers sid with
  | none => st
  | some set =>
      { st with watchers :=
          mapSet st.watchers sid (set.filter (fun w => w.wid ≠ wid)) }

/-- Uploader registration from `wss.on('connection')` in the digest
variant: create the set if absent, add the socket. -/
def connectUploader (st : ServerState) (sid : String) (uid : Nat) :
    ServerState :=
  { st with uploaders :=
      mapSet st.uploaders sid (natSetAdd ((mapGet st.uploaders sid).getD []) uid) }

/-- Uploader removal from the socket's `close` handler:
`set.delete(ws); if (set.size === 0) uploaders.delete(sid)`. -/
def closeUploader (st : ServerState) (sid : String) (uid : Nat) :
    ServerState :=
  match mapGet st.uploaders sid with
  | none => st
  | some set =>
      if set.erase uid = [] then
        { st with uploaders := mapErase st.uploaders sid }
      else { st with uploaders := mapSet st.uploaders sid (set.erase uid) }

/-- One event of the lifecycle transition system. -/
def step (st : ServerState) : Ev → ServerState
  | Ev.publish sid buf => (pushFrame st sid buf).1
  | Ev.watcherConnect sid w => registerWatcher st sid w
  | Ev.watcherClose sid wid => closeWatcher st sid wid
  | Ev.uploaderConnect sid uid => connectUploader st sid uid
  | Ev.uploaderClose sid uid => closeUploader st sid uid
  | Ev.adminDisconnect sid => { st with latest := mapErase st.latest sid }

/-- State reached from the empty initial state by a list of events. -/
def run (tr : List Ev) : ServerState := tr.foldl step initState

/-- Concrete two-session state used as a witness input: frames for
sessions `"1"` and `"2"`, one watcher on `"1"`, one tracked uploader
per session. -/
def wstC8 : ServerState :=
  ⟨[("1", [10]), ("2", [20])], [("1", [⟨0, true⟩])],
   [("1", [7]), ("2", [8])]⟩

/-! ## Helper lemmas about the association-list maps -/

section AssocMapLemmas

variable {α : Type}

theorem mapGet_mapSet_self (m : List (String × α)) (k : String) (v : α) :
    mapGet (mapSet m k v) k = some v := by
  induction m with
  | nil => simp [mapSet, mapGet]
  | cons p rest ih =>
      obtain ⟨k', v'⟩ := p
      by_cases h : k' = k
      · simp [mapSet, h, mapGet]
      · simp [mapSet, h, mapGet, ih]

theorem mapGet_mapSet_ne (m : List (String × α)) (k k' : String) (v : α)
    (h : k' ≠ k) : mapGet (mapSet m k v) k' = mapGet m k' := by
  have hne : ¬ k = k' := fun hh => h hh.symm
  induction m with
  | nil => simp [mapSet, mapGet, hne]
  | cons p rest ih =>
      obtain ⟨k0, v0⟩ := p
      by_cases h0 : k0 = k
      · subst h0
        simp [mapSet, mapGet, hne]
      · simp [mapSet, h0, mapGet, ih]

theorem mapGet_mapErase_self (m : List (String × α)) (k : String) :
    mapGet (mapErase m k) k = none := by
  induction m with
  | nil => simp [mapErase, mapGet]
  | cons p rest ih =>
      obtain ⟨k0, v0⟩ := p
      by_cases h0 : k0 = k
      · simp [mapErase, h0, ih]
      · simp [mapErase, h0, mapGet, ih]

theorem mapGet_mapErase_ne (m : List (String × α)) (k k' : String)
    (h : k' ≠ k) : mapGet (mapErase m k) k' = mapGet m k' := by
  have hne : ¬ k = k' := fun hh => h hh.symm
  induction m with
  | nil => simp [mapErase]
  | cons p rest ih =>
      obtain ⟨k0, v0⟩ := p
      by_cases h0 : k0 = k
      · subst h0
        simp [mapErase, mapGet, hne, ih]
      · simp [mapErase, h0, mapGet, ih]

theorem mapGet_mapErase_none (m : List (String × α)) (k s : String)
    (h : mapGet m s = none) : mapGet (mapErase m k) s = none := by
  by_cases hks : s = k
  · subst hks; exact mapGet_mapErase_self m s
  · rw [mapGet_mapErase_ne m k s hks]; exact h

theorem not_mem_mapKeys_of_mapGet_none (m : List (String × α)) (k : String)
    (h : mapGet m k = none) : k ∉ mapKeys m := by
  induction m with
  | nil => simp [mapKeys]
  | cons p rest ih =>
      obtain ⟨k0, v0⟩ := p
      by_cases h0 : k0 = k
      · simp [mapGet, h0] at h
      · simp only [mapGet, if_neg h0] at h
        simp only [mapKeys, List.map_cons, List.mem_cons]
        rintro (h1 | h1)
        · exact h0 h1.symm
        · exact ih h h1

theorem mem_of_mapGet_some (m : List (String × α)) (k : String) (v : α)
    (h : mapGet m k = some v) : (k, v) ∈ m := by
  induction m with
  | nil => simp [mapGet] at h
  | cons p rest ih =>
      obtain ⟨k0, v0⟩ := p
      by_cases h0 : k0 = k
      · subst h0
        simp [mapGet] at h
        simp [h]
      · simp only [mapGet, if_neg h0] at h
        exact List.mem_cons_of_mem _ (ih h)

theorem mem_mapSet_cases (m : List (String × α)) (k : String) (v : α)
    (p : String × α) (h : p ∈ mapSet m k v) : p = (k, v) ∨ p ∈ m := by
  induction m with
  | nil => simp [mapSet] at h; simp [h]
  | cons q rest ih =>
      obtain ⟨k0, v0⟩ := q
      by_cases h0 : k0 = k
      · simp [mapSet, h0] at h
        rcases h with h | h
        · exact Or.inl (by simp [h])
        · exact Or.inr (List.mem_cons_of_mem _ h)
      · simp only [mapSet, if_neg h0] at h
        rcases List.mem_cons.mp h with h | h
        · exact Or.inr (by simp [h])
        · rcases ih h with h | h
          · exact Or.inl h
          · exact Or.inr (List.mem_cons_of_mem _ h)

theorem mem_of_mem_mapErase (m : List (String × α)) (k : String)
    (p : String × α) (h : p ∈ mapErase m k) : p ∈ m := by
  induction m with
  | nil => simp [mapErase] at h
  | cons q rest ih =>
      obtain ⟨k0, v0⟩ := q
      by_cases h0 : k0 = k
      · simp only [mapErase, if_pos h0] at h
        exact List.mem_cons_of_mem _ (ih h)
      · simp only [mapErase, if_neg h0] at h
        rcases List.mem_cons.mp h with h | h
        · exact List.mem_cons.mpr (Or.inl h)
        · exact List.mem_cons_of_mem _ (ih h)

theorem mapKeys_mapSet_of_get_some (m : List (String × α)) (k : String)
    (v v0 : α) (h : mapGet m k = some v0) :
    mapKeys (mapSet m k v) = mapKeys m := by
  induction m with
  | nil => simp [mapGet] at h
  | cons q rest ih =>
      obtain ⟨k0, v1⟩ := q
      by_cases h0 : k0 = k
      · subst h0
        simp [mapSet, mapKeys]
      · simp only [mapGet, if_neg h0] at h
        have hrec := ih h
        simp only [mapKeys] at hrec ⊢
        simp [mapSet, h0, hrec]

end AssocMapLemmas

/-! ## Helper lemmas about the relay operations -/

theorem pushLoop_spec (buf : Frame) (l : List Watcher) :
    pushLoop buf l =
      (l.filter (fun w => w.canWrite),
       (l.filter (fun w => w.canWrite)).map (fun w => (w.wid, buf))) := by
  induction l with
  | nil => simp [pushLoop]
  | cons w ws ih =>
      by_cases h : w.canWrite
      · simp [pushLoop, ih, List.filter_cons, h]
      · simp [pushLoop, ih, List.filter_cons, h]

theorem pushFrame_latest (st : ServerState) (sid : String) (buf : Frame) :
    (pushFrame st sid buf).1.latest = mapSet st.latest sid buf := by
  unfold pushFrame
  cases mapGet st.watchers sid <;> rfl

theorem pushFrame_uploaders (st : ServerState) (sid : String) (buf : Frame) :
    (pushFrame st sid buf).1.uploaders = st.uploaders := by
  unfold pushFrame
  cases mapGet st.watchers sid <;> rfl

theorem natSetAdd_ne_nil (l : List Nat) (u : Nat) : natSetAdd l u ≠ [] := by
  unfold natSetAdd
  by_cases h : u ∈ l
  · simp only [if_pos h]
    exact List.ne_nil_of_mem h
  · simp [h]

/-- Latest-frame entry of a session: preserved as `none` by every
event of a trace that never publishes to that session. -/
theorem latest_none_preserved (s : String) (tr : List Ev) :
    ∀ st : ServerState, mapGet st.latest s = none →
      (∀ buf, Ev.publish s buf ∉ tr) →
      mapGet (tr.foldl step st).latest s = none := by
  induction tr with
  | nil => intro st h _; exact h
  | cons ev rest ih =>
      intro st h hnp
      have hrest : ∀ buf, Ev.publish s buf ∉ rest := by
        intro buf hmem
        exact hnp buf (List.mem_cons_of_mem _ hmem)
      have hstep : mapGet (step st ev).latest s = none := by
        cases ev with
        | publish sid buf =>
            have hne : s ≠ sid := by
              intro hs
              subst hs
              exact hnp buf (List.mem_cons.mpr (Or.inl rfl))
            rw [step, pushFrame_latest, mapGet_mapSet_ne _ _ _ _ hne]
            exact h
        | watcherConnect sid w =>
            simpa [step, registerWatcher] using h
        | watcherClose sid wid =>
            simp only [step, closeWatcher]
            cases hm : mapGet st.watchers sid with
            | none => simpa using h
            | some set => simpa using h
        | uploaderConnect sid uid =>
            simpa [step, connectUploader] using h
        | uploaderClose sid uid =>
            simp only [step, closeUploader]
            cases hm : mapGet st.uploaders sid with
            | none => simpa using h
            | some set =>
                by_cases he : set.erase uid = [] <;> simp [he, h]
        | adminDisconnect sid =>
            simpa [step] using mapGet_mapErase_none st.latest sid s h
      rw [List.foldl_cons]
      exact ih (step st ev) hstep hrest

/-- Uploader-registry invariant of the digest variant: every stored
set is non-empty; preserved by every lifecycle event. -/
theorem uploaders_nonempty_step (st : ServerState) (ev : Ev)
    (h : ∀ p ∈ st.uploaders, p.2 ≠ ([] : List Nat)) :
    ∀ p ∈ (step st ev).uploaders, p.2 ≠ ([] : List Nat) := by
  cases ev with
  | publish sid buf =>
      intro p hp
      rw [step, pushFrame_uploaders] at hp
      exact h p hp
  | watcherConnect sid w =>
      intro p hp
      exact h p (by simpa [step, registerWatcher] using hp)
  | watcherClose sid wid =>
      intro p hp
      cases hm : mapGet st.watchers sid with
      | none => simp only [step, closeWatcher, hm] at hp; exact h p hp
      | some set => simp only [step, closeWatcher, hm] at hp; exact h p hp
  | uploaderConnect sid uid =>
      intro p hp
      simp only [step, connectUploader] at hp
      rcases mem_mapSet_cases _ _ _ _ hp with hc | hc
      · rw [hc]
        exact natSetAdd_ne_nil _ _
      · exact h p hc
  | uploaderClose sid uid =>
      intro p hp
      cases hm : mapGet st.uploaders sid with
      | none =>
          simp only [step, closeUploader, hm] at hp
          exact h p hp
      | some set =>
          by_cases he : set.erase uid = []
          · simp only [step, closeUploader, hm, if_pos he] at hp
            exact h p (mem_of_mem_mapErase _ _ _ hp)
          · simp only [step, closeUploader, hm, if_neg he] at hp
            rcases mem_mapSet_cases _ _ _ _ hp with hc | hc
            · rw [hc]
              exact he
            · exact h p hc
  | adminDisconnect sid =>
      intro p hp
      exact h p (by simpa [step] using hp)

/-- Uploader-registry invariant, lifted to whole traces. -/
theorem uploaders_nonempty_run (tr : List Ev) :
    ∀ p ∈ (run tr).uploaders, p.2 ≠ ([] : List Nat) := by
  suffices hgen : ∀ st : ServerState,
      (∀ p ∈ st.uploaders, p.2 ≠ ([] : List Nat)) →
      ∀ p ∈ (tr.foldl step st).uploaders, p.2 ≠ ([] : List Nat) by
    exact hgen initState (by simp [initState])
  induction tr with
  | nil => intro st h; exact h
  | cons ev rest ih =>
      intro st h
      rw [List.foldl_cons]
      exact ih (step st ev) (uploaders_nonempty_step st ev h)

/-! ## Claims -/

/-- Claim C1: when `publish(s, frame)` (`pushFrame`) hits a write
failure on one watcher's channel, that watcher is removed from `s`'s
watcher set, the frame is still delivered to every remaining watcher
of `s`, and no error propagates to the producer's ingestion path:
the surviving set is exactly the watchers whose channel accepts
writes, every such watcher receives the frame, a failing watcher is
absent from the resulting set, and `pushFrame` is a total function
into a result state (the per-watcher exception is consumed by the
`catch` inside the loop, so the WebSocket message handler that calls
it never sees it). -/
theorem claimC1_failure_isolation (st : ServerState) (sid : String)
    (buf : Frame) (set : List Watcher)
    (h : mapGet st.watchers sid = some set) :
    mapGet (pushFrame st sid buf).1.watchers sid
        = some (set.filter (fun w => w.canWrite)) ∧
    (∀ w ∈ set, w.canWrite = true → (w.wid, buf) ∈ (pushFrame st sid buf).2) ∧
    (∀ w ∈ set, w.canWrite = false →
       ∀ l, mapGet (pushFrame st sid buf).1.watchers sid = some l → w ∉ l) ∧
    mapGet (pushFrame st sid buf).1.latest sid = some buf := by
  simp only [pushFrame, h, pushLoop_spec]
  refine ⟨mapGet_mapSet_self _ _ _, ?_, ?_, mapGet_mapSet_self _ _ _⟩
  · intro w hw hcw
    exact List.mem_map.mpr ⟨w, List.mem_filter.mpr ⟨hw, hcw⟩, rfl⟩
  · intro w hw hcw l hl
    rw [mapGet_mapSet_self] at hl
    injection hl with hl
    subst hl
    intro hmem
    have hcw' := (List.mem_filter.mp hmem).2
    rw [hcw] at hcw'
    exact Bool.false_ne_true hcw'

/-- Witness for C1: a concrete state with one live and one dead
watcher on session `"1"`. -/
theorem claimC1_failure_isolation_witness :
    mapGet (pushFrame ⟨[], [("1", [⟨0, true⟩, ⟨1, false⟩])], []⟩ "1"
        [42]).1.watchers "1" = some [⟨0, true⟩] ∧
    (∀ w ∈ [(⟨0, true⟩ : Watcher), ⟨1, false⟩], w.canWrite = true →
       (w.wid, [42]) ∈ (pushFrame ⟨[], [("1", [⟨0, true⟩, ⟨1, false⟩])], []⟩
         "1" [42]).2) ∧
    (∀ w ∈ [(⟨0, true⟩ : Watcher), ⟨1, false⟩], w.canWrite = false →
       ∀ l, mapGet (pushFrame ⟨[], [("1", [⟨0, true⟩, ⟨1, false⟩])], []⟩ "1"
         [42]).1.watchers "1" = some l → w ∉ l) ∧
    mapGet (pushFrame ⟨[], [("1", [⟨0, true⟩, ⟨1, false⟩])], []⟩ "1"
        [42]).1.latest "1" = some [42] :=
  claimC1_failure_isolation ⟨[], [("1", [⟨0, true⟩, ⟨1, false⟩])], []⟩
    "1" [42] [⟨0, true⟩, ⟨1, false⟩] (by decide)

/-- Claim C5: publishing `F1` then `F2` for session `s` leaves the
store holding exactly `F2`, and a `GET /jpg/:s` taken afterwards
(here in open mode, where the view gate passes) answers `200` with a
body byte-for-byte equal to `F2`. -/
theorem claimC5_store_replace_snapshot (st : ServerState) (s : String)
    (f1 f2 : Frame) :
    mapGet (pushFrame (pushFrame st s f1).1 s f2).1.latest s = some f2 ∧
    handleJpgRoute none none 0 (pushFrame (pushFrame st s f1).1 s f2).1 s
      = JpgResponse.image f2 := by
  have h2 := pushFrame_latest (pushFrame st s f1).1 s f2
  have hget : mapGet (pushFrame (pushFrame st s f1).1 s f2).1.latest s
      = some f2 := by
    rw [h2, mapGet_mapSet_self]
  refine ⟨hget, ?_⟩
  unfold handleJpgRoute viewGuard verifyTokenOrOpen handleJpg
  rw [hget]

/-- Claim C2: in enforcing mode, an otherwise-valid credential whose
embedded session is `A` is rejected on session `B`'s endpoints: the
viewer gate answers `403 forbidden`, and the ingestion upgrade
destroys the socket, even though the token's signature verifies and
it has not expired. -/
theorem claimC2_cross_session_rejected (sec A B : String) (e now : Nat)
    (hAB : A ≠ B) (hB : B ≠ "") (hexp : now < e) :
    viewGuard B (some sec) (some ⟨⟨A, "view", e⟩, sec⟩) now
        = GuardResult.reject 403 "forbidden" ∧
    handleUpgradeJwt "/ws" (some B) (some ⟨⟨A, "upload", e⟩, sec⟩)
        (some sec) now = UpgradeResult.destroyed := by
  constructor
  · unfold viewGuard verifyTokenOrOpen jwtVerify
    simp [hexp, hAB]
  · unfold handleUpgradeJwt jwtVerify
    simp [hB, hexp, hAB]

/-- Witness for C2: a token for session `"1"` used on session `"2"`. -/
theorem claimC2_cross_session_rejected_witness :
    viewGuard "2" (some "k") (some ⟨⟨"1", "view", 100⟩, "k"⟩) 0
        = GuardResult.reject 403 "forbidden" ∧
    handleUpgradeJwt "/ws" (some "2") (some ⟨⟨"1", "upload", 100⟩, "k"⟩)
        (some "k") 0 = UpgradeResult.destroyed :=
  claimC2_cross_session_rejected "k" "1" "2" 100 0 (by decide) (by decide)
    (by decide)

/-- Claim C8: an authorized `POST /admin/disconnect/:sid` answers
`{ok:true}`, closes exactly the tracked uploader channels of `sid`,
deletes `sid`'s stored frame (a subsequent snapshot is `204`), leaves
every other session's stored frame untouched, and leaves the whole
watcher registry unchanged. -/
theorem claimC8_admin_disconnect (ac q hc : String) (st : ServerState)
    (sid : String) (hAdm : isAdmin q hc ac = true) :
    (handleAdminDisconnect ac q hc st sid).1 = AdminResp.okJson ∧
    (handleAdminDisconnect ac q hc st sid).2.2
        = (mapGet st.uploaders sid).getD [] ∧
    mapGet (handleAdminDisconnect ac q hc st sid).2.1.latest sid = none ∧
    handleJpg (handleAdminDisconnect ac q hc st sid).2.1 sid
        = JpgResponse.noContent ∧
    (∀ s', s' ≠ sid →
       mapGet (handleAdminDisconnect ac q hc st sid).2.1.latest s'
         = mapGet st.latest s') ∧
    (handleAdminDisconnect ac q hc st sid).2.1.watchers = st.watchers := by
  simp only [handleAdminDisconnect, if_pos hAdm]
  refine ⟨trivial, trivial, ?_, ?_, ?_, trivial⟩
  · exact mapGet_mapErase_self _ _
  · unfold handleJpg
    rw [mapGet_mapErase_self]
  · intro s' hs'
    exact mapGet_mapErase_ne _ _ _ hs'

/-- Witness for C8: disconnecting session `"1"` in a state holding
frames and uploaders for sessions `"1"` and `"2"`. -/
theorem claimC8_admin_disconnect_witness :
    (handleAdminDisconnect "a" "a" "" wstC8 "1").1 = AdminResp.okJson ∧
    (handleAdminDisconnect "a" "a" "" wstC8 "1").2.2
        = (mapGet wstC8.uploaders "1").getD [] ∧
    mapGet (handleAdminDisconnect "a" "a" "" wstC8 "1").2.1.latest "1"
        = none ∧
    handleJpg (handleAdminDisconnect "a" "a" "" wstC8 "1").2.1 "1"
        = JpgResponse.noContent ∧
    (∀ s', s' ≠ "1" →
       mapGet (handleAdminDisconnect "a" "a" "" wstC8 "1").2.1.latest s'
         = mapGet wstC8.latest s') ∧
    (handleAdminDisconnect "a" "a" "" wstC8 "1").2.1.watchers
        = wstC8.watchers :=
  claimC8_admin_disconnect "a" "a" "" wstC8 "1" (by decide)

/-- Counterexample to claim C7: in the signed-token variant, an
upgrade request on `/ws` with **no session parameter at all** is not
destroyed — `String(url.searchParams.get('sid') || '0')` silently
defaults the session to `"0"`, and with a valid upload token for
`"0"` the upgrade completes. -/
theorem claimC7_counterexample :
    handleUpgradeJwt "/ws" none (some ⟨⟨"0", "upload", 100⟩, "sec"⟩)
        (some "sec") 0 = UpgradeResult.upgraded "0" := by
  decide

/-- Claim C7 as amended: upgrade requests on a wrong path are
destroyed at the transport level in both variants (the result type
carries no response body); in the digest variant a missing session or
credential parameter is also destroyed; in the signed-token variant a
missing credential is destroyed only in enforcing mode, while a
missing (or empty) session parameter does not terminate the
connection but is defaulted to session `"0"`. -/
theorem claimC7_amended_upgrade_protocol :
    (∀ p sidP tokP secret now, p ≠ "/ws" →
       handleUpgradeJwt p sidP tokP secret now = UpgradeResult.destroyed) ∧
    (∀ sidP sec now, handleUpgradeJwt "/ws" sidP none (some sec) now
       = UpgradeResult.destroyed) ∧
    (∀ hash ss p sidP tokP, p ≠ "/ws" →
       handleUpgradeDigest hash ss p sidP tokP = UpgradeResult.destroyed) ∧
    (∀ hash ss tokP, handleUpgradeDigest hash ss "/ws" none tokP
       = UpgradeResult.destroyed) ∧
    (∀ hash ss sidP, handleUpgradeDigest hash ss "/ws" sidP none
       = UpgradeResult.destroyed) ∧
    (∀ tokP secret now, handleUpgradeJwt "/ws" none tokP secret now
       = handleUpgradeJwt "/ws" (some "0") tokP secret now) := by
  refine ⟨?_, ?_, ?_, ?_, ?_, ?_⟩
  · intro p sidP tokP secret now hp
    unfold handleUpgradeJwt
    rw [if_pos hp]
  · intro sidP sec now
    unfold handleUpgradeJwt
    simp
  · intro hash ss p sidP tokP hp
    unfold handleUpgradeDigest
    rw [if_pos hp]
  · intro hash ss tokP
    unfold handleUpgradeDigest
    simp
  · intro hash ss sidP
    unfold handleUpgradeDigest
    simp
  · intro tokP secret now
    unfold handleUpgradeJwt
    simp

/-- Witness for the amended C7: concrete instances of each clause. -/
theorem claimC7_amended_upgrade_protocol_witness :
    handleUpgradeJwt "/x" none none none 0 = UpgradeResult.destroyed ∧
    handleUpgradeJwt "/ws" (some "1") none (some "s") 0
        = UpgradeResult.destroyed ∧
    handleUpgradeDigest (fun s => s) "s" "/x" none none
        = UpgradeResult.destroyed ∧
    handleUpgradeDigest (fun s => s) "s" "/ws" none (some "t")
        = UpgradeResult.destroyed ∧
    handleUpgradeDigest (fun s => s) "s" "/ws" (some "1") none
        = UpgradeResult.destroyed ∧
    handleUpgradeJwt "/ws" none none none 0
        = handleUpgradeJwt "/ws" (some "0") none none 0 :=
  ⟨claimC7_amended_upgrade_protocol.1 "/x" none none none 0 (by decide),
   claimC7_amended_upgrade_protocol.2.1 (some "1") "s" 0,
   claimC7_amended_upgrade_protocol.2.2.1 (fun s => s) "s" "/x" none none
     (by decide),
   claimC7_amended_upgrade_protocol.2.2.2.1 (fun s => s) "s" (some "t"),
   claimC7_amended_upgrade_protocol.2.2.2.2.1 (fun s => s) "s" (some "1"),
   claimC7_amended_upgrade_protocol.2.2.2.2.2 none none 0⟩

/-- Counterexample to claim C6: registering one watcher for session
`"1"` and then closing it leaves the watcher registry holding an
entry for `"1"` whose set is empty — the `close` callback only runs
`set.delete(res)` and never deletes the map entry. -/
theorem claimC6_counterexample :
    mapGet (closeWatcher (registerWatcher initState "1" ⟨0, true⟩) "1"
        0).watchers "1" = some [] := by
  decide

/-- Claim C6 as amended: the watcher registry never deletes a map
entry — closing a watcher and broadcasting both preserve the key set
exactly, and closing a watcher merely filters it out of the (kept)
set of its session, so unregistering the last watcher of `s` leaves
an empty-set entry for `s` in the registry. -/
theorem claimC6_amended_watcher_entries_persist :
    (∀ st sid wid,
       mapKeys (closeWatcher st sid wid).watchers = mapKeys st.watchers) ∧
    (∀ st sid buf,
       mapKeys (pushFrame st sid buf).1.watchers = mapKeys st.watchers) ∧
    (∀ st sid wid set, mapGet st.watchers sid = some set →
       mapGet (closeWatcher st sid wid).watchers sid
         = some (set.filter (fun w => w.wid ≠ wid))) := by
  refine ⟨?_, ?_, ?_⟩
  · intro st sid wid
    unfold closeWatcher
    cases hm : mapGet st.watchers sid with
    | none => rfl
    | some set =>
        exact mapKeys_mapSet_of_get_some _ _ _ _ hm
  · intro st sid buf
    unfold pushFrame
    cases hm : mapGet st.watchers sid with
    | none => rfl
    | some set =>
        exact mapKeys_mapSet_of_get_some _ _ _ _ hm
  · intro st sid wid set hm
    simp only [closeWatcher, hm]
    exact mapGet_mapSet_self _ _ _

/-- Counterexample to claim C3: in the digest variant the `/status`
route consults no credential at all — a request carrying none
receives the full session/watcher/uploader enumeration instead of
being rejected, here on a state with one live frame for session
`"1"`. -/
theorem claimC3_counterexample :
    handleStatusDigestRoute none ⟨[("1", [255])], [], []⟩
      = { streams := ["1"], watcherCounts := [], uploaderCounts := [] } := by
  decide

/-- Claim C3 as amended: in the signed-token variant with a secret
configured, `/status` is admin-gated exactly as the claim says — a
missing token is rejected `401 missing_token`, a valid token of a
non-admin scope is rejected `403 forbidden`, a non-verifying token is
rejected `401 invalid_token`, and a valid admin-scope token receives
the enumeration; in the digest variant, however, `/status` is
unauthenticated and returns the enumeration whatever credential (or
none) the request carries. -/
theorem claimC3_amended_status_auth :
    (∀ sec st now, handleStatusJwt (some sec) none now st
       = StatusJwtResult.rejected 401 "missing_token") ∧
    (∀ sec st now sid e scope, scope ≠ "admin" → now < e →
       handleStatusJwt (some sec) (some ⟨⟨sid, scope, e⟩, sec⟩) now st
         = StatusJwtResult.rejected 403 "forbidden") ∧
    (∀ sec st now t, jwtVerify t sec now = none →
       handleStatusJwt (some sec) (some t) now st
         = StatusJwtResult.rejected 401 "invalid_token") ∧
    (∀ sec st now sid e, now < e →
       handleStatusJwt (some sec) (some ⟨⟨sid, "admin", e⟩, sec⟩) now st
         = StatusJwtResult.body "secure" (mapKeys st.latest)
             (st.watchers.map (fun kv => (kv.1, kv.2.length)))) ∧
    (∀ code st, handleStatusDigestRoute code st = statusDigestBody st) := by
  refine ⟨?_, ?_, ?_, ?_, ?_⟩
  · intro sec st now
    rfl
  · intro sec st now sid e scope hscope hexp
    unfold handleStatusJwt verifyTokenOrOpen jwtVerify
    simp [hexp, hscope]
  · intro sec st now t hver
    simp [handleStatusJwt, verifyTokenOrOpen, hver]
  · intro sec st now sid e hexp
    unfold handleStatusJwt verifyTokenOrOpen jwtVerify
    simp [hexp]
  · intro code st
    rfl

/-- Witness for the amended C3: concrete instances of each clause
(the non-verifying token is one signed with a different secret). -/
theorem claimC3_amended_status_auth_witness :
    handleStatusJwt (some "s") none 0 initState
        = StatusJwtResult.rejected 401 "missing_token" ∧
    handleStatusJwt (some "s") (some ⟨⟨"1", "view", 100⟩, "s"⟩) 0 initState
        = StatusJwtResult.rejected 403 "forbidden" ∧
    handleStatusJwt (some "s") (some ⟨⟨"1", "admin", 100⟩, "x"⟩) 0 initState
        = StatusJwtResult.rejected 401 "invalid_token" ∧
    handleStatusJwt (some "s") (some ⟨⟨"1", "admin", 100⟩, "s"⟩) 0 initState
        = StatusJwtResult.body "secure" (mapKeys initState.latest)
            (initState.watchers.map (fun kv => (kv.1, kv.2.length))) ∧
    handleStatusDigestRoute (some "c") initState
        = statusDigestBody initState :=
  ⟨claimC3_amended_status_auth.1 "s" initState 0,
   claimC3_amended_status_auth.2.1 "s" initState 0 "1" 100 "view"
     (by decide) (by decide),
   claimC3_amended_status_auth.2.2.1 "s" initState 0
     ⟨⟨"1", "admin", 100⟩, "x"⟩ (by decide),
   claimC3_amended_status_auth.2.2.2.1 "s" initState 0 "1" 100 (by decide),
   claimC3_amended_status_auth.2.2.2.2 (some "c") initState⟩

/-- Counterexample to claim C4: in the signed-token variant the
administrative decision is **not** independent of the viewer/uploader
signing secret.  Two runs differing only in `GSIMS_JWT_SECRET`
(`"s1"` vs `"s2"`) treat the same admin `/status` request oppositely,
and the accepted credential is an admin-scope token signed with the
very secret that also signs `view`/`upload` tokens. -/
theorem claimC4_counterexample :
    handleStatusJwt (some "s1") (some ⟨⟨"1", "admin", 100⟩, "s1"⟩) 0 initState
        = StatusJwtResult.body "secure" [] [] ∧
    handleStatusJwt (some "s2") (some ⟨⟨"1", "admin", 100⟩, "s1"⟩) 0 initState
        = StatusJwtResult.rejected 401 "invalid_token" := by
  decide

/-- Claim C4 as amended: only the digest variant separates the
administrative secret — its `isAdmin` decision is unchanged under any
change of the shared digest secret and grants access exactly when the
supplied query or header code equals `ADMIN_CODE`.  In the
signed-token variant, administrative access to `/status` is granted
by an admin-scope token signed with the same `JWT_SECRET` that signs
viewer/uploader tokens (and `/issue` mints such admin tokens with
that secret given the API key), so admin capability is derivable from
the viewer/uploader signing secret there. -/
theorem claimC4_amended_admin_credentials :
    (∀ s1 s2 ac q hc, adminDecision s1 ac q hc = adminDecision s2 ac q hc) ∧
    (∀ ac q hc, isAdmin q hc ac = true ↔ (q = ac ∨ hc = ac)) ∧
    (∀ js ak now, handleIssue (some js) (some ak) ak "1" "admin" 3600 now
       = Except.ok ⟨⟨"1", "admin", now + 3600⟩, js⟩) ∧
    (∀ sec sid e now st, now < e →
       handleStatusJwt (some sec) (some ⟨⟨sid, "admin", e⟩, sec⟩) now st
         = StatusJwtResult.body "secure" (mapKeys st.latest)
             (st.watchers.map (fun kv => (kv.1, kv.2.length)))) := by
  refine ⟨?_, ?_, ?_, ?_⟩
  · intro s1 s2 ac q hc
    rfl
  · intro ac q hc
    unfold isAdmin
    simp
  · intro js ak now
    have hd : sidDigits "1" = true := by decide
    have hm : max 30 (min (86400 * 7) 3600) = 3600 := by norm_num
    have hs : (("admin" : String) = "view" ∨ ("admin" : String) = "upload" ∨
        ("admin" : String) = "admin") := by decide
    simp [handleIssue, hd, hm, hs]
  · intro sec sid e now st hexp
    unfold handleStatusJwt verifyTokenOrOpen jwtVerify
    simp [hexp]

/-- Witness for the amended C4: concrete instances of each clause. -/
theorem claimC4_amended_admin_credentials_witness :
    adminDecision "s1" "a" "a" "" = adminDecision "s2" "a" "a" "" ∧
    (isAdmin "a" "" "a" = true ↔ (("a" : String) = "a" ∨ ("" : String) = "a")) ∧
    handleIssue (some "js") (some "ak") "ak" "1" "admin" 3600 7
        = Except.ok ⟨⟨"1", "admin", 7 + 3600⟩, "js"⟩ ∧
    handleStatusJwt (some "s1") (some ⟨⟨"1", "admin", 100⟩, "s1"⟩) 0 wstC8
        = StatusJwtResult.body "secure" (mapKeys wstC8.latest)
            (wstC8.watchers.map (fun kv => (kv.1, kv.2.length))) :=
  ⟨claimC4_amended_admin_credentials.1 "s1" "s2" "a" "a" "",
   claimC4_amended_admin_credentials.2.1 "a" "a" "",
   claimC4_amended_admin_credentials.2.2.1 "js" "ak" 7,
   claimC4_amended_admin_credentials.2.2.2 "s1" "1" 100 0 wstC8 (by decide)⟩

/-- Claim C9: a session `s` never published to in an entire lifecycle
trace has no stored frame, its snapshot (`GET /jpg/:s`, here in open
mode) answers `204` with an empty body, and the status enumeration of
live frames (the `latest` key list reported by both variants'
`/status`) does not include `s`. -/
theorem claimC9_unpublished_session (tr : List Ev) (s : String)
    (h : ∀ buf, Ev.publish s buf ∉ tr) :
    mapGet (run tr).latest s = none ∧
    handleJpg (run tr) s = JpgResponse.noContent ∧
    handleJpgRoute none none 0 (run tr) s = JpgResponse.noContent ∧
    s ∉ (statusDigestBody (run tr)).streams ∧
    s ∉ mapKeys (run tr).latest := by
  have h0 : mapGet (run tr).latest s = none := by
    unfold run
    exact latest_none_preserved s tr initState rfl h
  have hk : s ∉ mapKeys (run tr).latest :=
    not_mem_mapKeys_of_mapGet_none _ _ h0
  refine ⟨h0, ?_, ?_, ?_, hk⟩
  · unfold handleJpg
    rw [h0]
  · unfold handleJpgRoute viewGuard verifyTokenOrOpen handleJpg
    rw [h0]
  · simpa [statusDigestBody] using hk

/-- Witness for C9: a trace that publishes only to session `"2"` and
registers a watcher for `"1"`, checked for session `"1"`. -/
theorem claimC9_unpublished_session_witness :
    mapGet (run [Ev.publish "2" [1], Ev.watcherConnect "1" ⟨0, true⟩]).latest
        "1" = none ∧
    handleJpg (run [Ev.publish "2" [1], Ev.watcherConnect "1" ⟨0, true⟩]) "1"
        = JpgResponse.noContent ∧
    handleJpgRoute none none 0
        (run [Ev.publish "2" [1], Ev.watcherConnect "1" ⟨0, true⟩]) "1"
        = JpgResponse.noContent ∧
    "1" ∉ (statusDigestBody
        (run [Ev.publish "2" [1], Ev.watcherConnect "1" ⟨0, true⟩])).streams ∧
    "1" ∉ mapKeys
        (run [Ev.publish "2" [1], Ev.watcherConnect "1" ⟨0, true⟩]).latest :=
  claimC9_unpublished_session [Ev.publish "2" [1],
    Ev.watcherConnect "1" ⟨0, true⟩] "1" (by intro buf; simp)

/-- Claim C10: in the digest variant, every set stored in the
`uploaders` registry along any lifecycle trace is non-empty; the
entry for a session exists right after an uploader connects, closing
the last uploader deletes the entry, and consequently the status
enumeration never reports a session with zero uploaders. -/
theorem claimC10_uploaders_invariant :
    (∀ tr sid l, mapGet (run tr).uploaders sid = some l → l ≠ []) ∧
    (∀ st sid uid,
       mapGet (connectUploader st sid uid).uploaders sid ≠ none) ∧
    (∀ st sid uid, mapGet st.uploaders sid = some [uid] →
       mapGet (closeUploader st sid uid).uploaders sid = none) ∧
    (∀ tr p, p ∈ (statusDigestBody (run tr)).uploaderCounts → p.2 ≠ 0) := by
  refine ⟨?_, ?_, ?_, ?_⟩
  · intro tr sid l hm
    exact uploaders_nonempty_run tr (sid, l) (mem_of_mapGet_some _ _ _ hm)
  · intro st sid uid
    unfold connectUploader
    rw [mapGet_mapSet_self]
    simp
  · intro st sid uid hm
    have he : ([uid] : List Nat).erase uid = [] := by simp
    simp only [closeUploader, hm, he, if_pos rfl]
    exact mapGet_mapErase_self _ _
  · intro tr p hp
    simp only [statusDigestBody, List.mem_map] at hp
    obtain ⟨kv, hkv, hpe⟩ := hp
    have hne := uploaders_nonempty_run tr kv hkv
    rw [← hpe]
    simpa using fun hlen => hne (List.eq_nil_of_length_eq_zero hlen)

/-- Witness for C10: one uploader connecting to session `"1"`, and a
state where that single uploader then closes. -/
theorem claimC10_uploaders_invariant_witness :
    (([5] : List Nat) ≠ []) ∧
    mapGet (connectUploader initState "1" 5).uploaders "1" ≠ none ∧
    mapGet (closeUploader ⟨[], [], [("1", [5])]⟩ "1" 5).uploaders "1"
        = none ∧
    ((("1", 1) : String × Nat).2 ≠ 0) :=
  ⟨claimC10_uploaders_invariant.1 [Ev.uploaderConnect "1" 5] "1" [5]
     (by decide),
   claimC10_uploaders_invariant.2.1 initState "1" 5,
   claimC10_uploaders_invariant.2.2.1 ⟨[], [], [("1", [5])]⟩ "1" 5
     (by decide),
   claimC10_uploaders_invariant.2.2.2 [Ev.uploaderConnect "1" 5] ("1", 1)
     (by decide)⟩

/-- Witness for the amended C6: the concrete one-watcher scenario of
the counterexample, checked through the amended statement. -/
theorem claimC6_amended_watcher_entries_persist_witness :
    mapKeys (closeWatcher (registerWatcher initState "1" ⟨0, true⟩) "1"
        0).watchers
      = mapKeys (registerWatcher initState "1" ⟨0, true⟩).watchers ∧
    mapGet (closeWatcher (registerWatcher initState "1" ⟨0, true⟩) "1"
        0).watchers "1"
      = some (([⟨0, true⟩] : List Watcher).filter (fun w => w.wid ≠ 0)) :=
  ⟨claimC6_amended_watcher_entries_persist.1
     (registerWatcher initState "1" ⟨0, true⟩) "1" 0,
   claimC6_amended_watcher_entries_persist.2.2
     (registerWatcher initState "1" ⟨0, true⟩) "1" 0 [⟨0, true⟩]
     (by decide)⟩

end Gsims
